import Mathlib

/-!
Verification development for the FleetArmor backend (two Express servers:
`src/server.js` with the fleet-worker and company endpoints, and
`src/unnamed/part_000` with the guard and company endpoints plus the
rate-limiter registration of the quote endpoint).

The request pipeline (express-validator chains, the route handlers, the
inlined HTML templates, the mail options and the centralized error handler)
is embedded shallowly.  Library functions from `validator.js` that the
chains invoke (`trim`, `toLower` from `normalizeEmail`, `isEmail`, the
phone regular expression) are modelled over `List Char`, because the
corresponding core `String` operations do not reduce in the kernel.
-/

namespace FleetArmor

/-- Process-level configuration read from the deployment environment:
`EMAIL_USER`, the optional `ADMIN_EMAIL`, and whether `NODE_ENV` equals
`production`. -/
structure Config where
  emailUser : String
  adminEmail : Option String
  production : Bool
deriving DecidableEq

/-- The admin recipient used by every handler:
`process.env.ADMIN_EMAIL || process.env.EMAIL_USER`. -/
def adminAddr (cfg : Config) : String :=
  cfg.adminEmail.getD cfg.emailUser

/-- One outbound message handed to `transporter.sendMail` (the source's
mail-options object).  The `from` and `to` fields of the source are called
`fromAddr` and `toAddr` here because both are reserved words in Lean. -/
structure EmailMessage where
  fromAddr : String
  toAddr : String
  subject : String
  replyTo : Option String
  html : String
deriving DecidableEq

/-- One element of `validationResult(req).array()`.  express-validator 7
serializes each error as an object with keys `type`, `value`, `msg`,
`path`, `location` (version 6 writes `param` instead of `path`); neither
version emits keys named `field` or `message`. -/
structure ValidationErrorEntry where
  type : String
  value : String
  msg : String
  path : String
  location : String
deriving DecidableEq

/-- The JSON key names of a serialized validation-error entry
(express-validator 7 shape). -/
def entryJsonKeys : List String :=
  ["type", "value", "msg", "path", "location"]

/-- Builds the error entry express-validator records for a failed check on
a body field. -/
def fieldErr (path msg value : String) : ValidationErrorEntry :=
  ⟨"field", value, msg, path, "body"⟩

/-- Model of the `.trim()` sanitizer of validator.js (strip leading and
trailing whitespace), written over the character list so that it reduces
in the kernel. -/
def trimStr (s : String) : String :=
  String.mk (((s.data.dropWhile Char.isWhitespace).reverse.dropWhile Char.isWhitespace).reverse)

/-- Model of the lowercasing performed by the `.normalizeEmail()`
sanitizer of validator.js (provider-specific rewrites such as gmail dot
removal are out of scope). -/
def lowerStr (s : String) : String :=
  String.mk (s.data.map Char.toLower)

/-- Model of validator.js `isEmail`, restricted to its structural core:
one `@` separating a non-empty local part from a non-empty domain that
contains an inner dot, and no whitespace anywhere. -/
def isEmailStr (s : String) : Bool :=
  let cs := s.data
  let lp := cs.takeWhile (· ≠ '@')
  match cs.dropWhile (· ≠ '@') with
  | '@' :: dom =>
      !lp.isEmpty && !dom.isEmpty && !dom.contains '@' &&
      dom.contains '.' && dom.head? ≠ some '.' && dom.getLast? ≠ some '.' &&
      !cs.any (·.isWhitespace)
  | _ => false

/-- Model of the phone pattern of every form, the anchored regular
expression `^\+?[\d\s-]\x7b10,\x7d$`: an optional leading plus followed by
at least ten characters that are digits, whitespace or hyphens. -/
def phoneMatches (s : String) : Bool :=
  let cs := match s.data with
    | '+' :: rest => rest
    | cs => cs
  decide (cs.length ≥ 10) && cs.all (fun c => c.isDigit || c.isWhitespace || c == '-')

/-- A parsed JSON request body: a partial map from field name to the
submitted string value (`none` models an absent key). -/
def FormBody : Type := String → Option String

/-- Builds a concrete request body from an association list. -/
def mkBody (l : List (String × String)) : FormBody :=
  fun f => l.lookup f

/-- The value a validation chain for field `f` works on: the raw value
(`''` when the field is missing, as express-validator stringifies
`undefined`) after the `.trim()` sanitizer. -/
def trimmedVal (body : FormBody) (f : String) : String :=
  trimStr ((body f).getD "")

/-- Errors of a `.notEmpty().withMessage(m)` check. -/
def notEmptyErrs (p m s : String) : List ValidationErrorEntry :=
  if s = "" then [fieldErr p m s] else []

/-- Errors of an `.isLength(\x7bmin, max\x7d).withMessage(m)` check. -/
def lenBetweenErrs (p m : String) (lo hi : Nat) (s : String) : List ValidationErrorEntry :=
  if lo ≤ s.length ∧ s.length ≤ hi then [] else [fieldErr p m s]

/-- Errors of an `.isLength(\x7bmax\x7d).withMessage(m)` check. -/
def lenMaxErrs (p m : String) (hi : Nat) (s : String) : List ValidationErrorEntry :=
  if s.length ≤ hi then [] else [fieldErr p m s]

/-- Errors of an `.isEmail().withMessage(m)` check. -/
def emailChainErrs (p m s : String) : List ValidationErrorEntry :=
  if isEmailStr s then [] else [fieldErr p m s]

/-- Errors of a `.matches(phone pattern).withMessage(m)` check. -/
def phoneChainErrs (p m s : String) : List ValidationErrorEntry :=
  if phoneMatches s then [] else [fieldErr p m s]

/-- The outcome is `Invalid` with some violation naming field `f`. -/
def hasViolation (es : List ValidationErrorEntry) (f : String) : Prop :=
  ∃ e ∈ es, e.path = f

/-- Sanitized body of a guard application (`src/unnamed/part_000`). -/
structure GuardRecord where
  fullName : String
  email : String
  phone : String
  city : String
  license : String
  yearsOfExperience : String
  details : String
deriving DecidableEq

/-- The ordered violations of `validateGuardRequest`
(`src/unnamed/part_000` lines 73-83), chain by chain. -/
def guardErrors (body : FormBody) : List ValidationErrorEntry :=
  notEmptyErrs "fullName" "Full name is required" (trimmedVal body "fullName") ++
  lenBetweenErrs "fullName" "Name must be between 2 and 100 characters" 2 100
    (trimmedVal body "fullName") ++
  emailChainErrs "email" "Valid email is required" (trimmedVal body "email") ++
  phoneChainErrs "phone" "Valid phone number is required" (trimmedVal body "phone") ++
  notEmptyErrs "city" "City is required" (trimmedVal body "city") ++
  notEmptyErrs "license" "Security guard license is required" (trimmedVal body "license") ++
  notEmptyErrs "yearsOfExperience" "Years of experience is required"
    (trimmedVal body "yearsOfExperience") ++
  lenMaxErrs "details" "Details must not exceed 1000 characters" 1000
    (trimmedVal body "details")

/-- The sanitized guard body after the chains of `validateGuardRequest`
ran (every field trimmed, the email additionally normalized). -/
def guardRecord (body : FormBody) : GuardRecord :=
  { fullName := trimmedVal body "fullName"
    email := lowerStr (trimmedVal body "email")
    phone := trimmedVal body "phone"
    city := trimmedVal body "city"
    license := trimmedVal body "license"
    yearsOfExperience := trimmedVal body "yearsOfExperience"
    details := trimmedVal body "details" }

/-- Sanitized body of a company request (`src/unnamed/part_000`). -/
structure CompanyRecord where
  companyName : String
  email : String
  phone : String
  firstName : String
  lastName : String
  city : String
  securityGuardType : String
  numberOfGuards : String
  service : String
  details : String
deriving DecidableEq

/-- The ordered violations of `validateCompanyRequest`
(`src/unnamed/part_000` lines 85-98). -/
def companyErrors (body : FormBody) : List ValidationErrorEntry :=
  notEmptyErrs "companyName" "Company name is required" (trimmedVal body "companyName") ++
  lenBetweenErrs "companyName" "Company name must be between 2 and 100 characters" 2 100
    (trimmedVal body "companyName") ++
  emailChainErrs "email" "Valid email is required" (trimmedVal body "email") ++
  phoneChainErrs "phone" "Valid phone number is required" (trimmedVal body "phone") ++
  notEmptyErrs "firstName" "First name is required" (trimmedVal body "firstName") ++
  notEmptyErrs "lastName" "Last name is required" (trimmedVal body "lastName") ++
  notEmptyErrs "city" "City is required" (trimmedVal body "city") ++
  notEmptyErrs "securityGuardType" "Security guard type is required"
    (trimmedVal body "securityGuardType") ++
  notEmptyErrs "numberOfGuards" "Number of guards is required"
    (trimmedVal body "numberOfGuards") ++
  notEmptyErrs "service" "Service type is required" (trimmedVal body "service") ++
  lenMaxErrs "details" "Details must not exceed 1000 characters" 1000
    (trimmedVal body "details")

/-- The sanitized company body after `validateCompanyRequest` ran. -/
def companyRecord (body : FormBody) : CompanyRecord :=
  { companyName := trimmedVal body "companyName"
    email := lowerStr (trimmedVal body "email")
    phone := trimmedVal body "phone"
    firstName := trimmedVal body "firstName"
    lastName := trimmedVal body "lastName"
    city := trimmedVal body "city"
    securityGuardType := trimmedVal body "securityGuardType"
    numberOfGuards := trimmedVal body "numberOfGuards"
    service := trimmedVal body "service"
    details := trimmedVal body "details" }

/-- The ordered violations of the second `validateCompanyRequest` variant
(`src/server.js` lines 75-86), which asks for `cityProvince` and
`majorArea` instead of `city`, `securityGuardType`, `numberOfGuards` and
`service`. -/
def companyServerErrors (body : FormBody) : List ValidationErrorEntry :=
  notEmptyErrs "companyName" "Company name is required" (trimmedVal body "companyName") ++
  lenBetweenErrs "companyName" "Company name must be between 2 and 100 characters" 2 100
    (trimmedVal body "companyName") ++
  emailChainErrs "email" "Valid email is required" (trimmedVal body "email") ++
  phoneChainErrs "phone" "Valid phone number is required" (trimmedVal body "phone") ++
  notEmptyErrs "firstName" "First name is required" (trimmedVal body "firstName") ++
  notEmptyErrs "lastName" "Last name is required" (trimmedVal body "lastName") ++
  notEmptyErrs "cityProvince" "City & Province is required" (trimmedVal body "cityProvince") ++
  notEmptyErrs "majorArea" "Major area is required" (trimmedVal body "majorArea") ++
  lenMaxErrs "details" "Details must not exceed 1000 characters" 1000
    (trimmedVal body "details")

/-- Sanitized body of a fleet-worker application (`src/server.js`). -/
structure FleetWorkerRecord where
  firstName : String
  lastName : String
  email : String
  phone : String
  city : String
  specialtyCategory : String
  specialtySubcategory : String
  yearsOfExperience : String
  cdlLicense : Option String
  details : String
deriving DecidableEq

/-- The ordered violations of `validateFleetWorkerRequest`
(`src/server.js` lines 88-103).  The `cdlLicense` chain is marked
`.optional()`, so it is skipped entirely when the key is absent. -/
def fleetWorkerErrors (body : FormBody) : List ValidationErrorEntry :=
  notEmptyErrs "firstName" "First name is required" (trimmedVal body "firstName") ++
  lenBetweenErrs "firstName" "First name must be between 2 and 50 characters" 2 50
    (trimmedVal body "firstName") ++
  notEmptyErrs "lastName" "Last name is required" (trimmedVal body "lastName") ++
  lenBetweenErrs "lastName" "Last name must be between 2 and 50 characters" 2 50
    (trimmedVal body "lastName") ++
  emailChainErrs "email" "Valid email is required" (trimmedVal body "email") ++
  phoneChainErrs "phone" "Valid phone number is required" (trimmedVal body "phone") ++
  notEmptyErrs "city" "City is required" (trimmedVal body "city") ++
  lenBetweenErrs "city" "City must be between 2 and 100 characters" 2 100
    (trimmedVal body "city") ++
  notEmptyErrs "specialtyCategory" "Specialty category is required"
    (trimmedVal body "specialtyCategory") ++
  notEmptyErrs "specialtySubcategory" "Specialty subcategory is required"
    (trimmedVal body "specialtySubcategory") ++
  notEmptyErrs "yearsOfExperience" "Years of experience is required"
    (trimmedVal body "yearsOfExperience") ++
  (match body "cdlLicense" with
   | none => []
   | some raw =>
       lenMaxErrs "cdlLicense" "CDL license must not exceed 100 characters" 100
         (trimStr raw)) ++
  lenMaxErrs "details" "Details must not exceed 1000 characters" 1000
    (trimmedVal body "details")

/-- The sanitized fleet-worker body after `validateFleetWorkerRequest`
ran.  `cdlLicense` stays absent when the key was absent. -/
def fleetWorkerRecord (body : FormBody) : FleetWorkerRecord :=
  { firstName := trimmedVal body "firstName"
    lastName := trimmedVal body "lastName"
    email := lowerStr (trimmedVal body "email")
    phone := trimmedVal body "phone"
    city := trimmedVal body "city"
    specialtyCategory := trimmedVal body "specialtyCategory"
    specialtySubcategory := trimmedVal body "specialtySubcategory"
    yearsOfExperience := trimmedVal body "yearsOfExperience"
    cdlLicense := (body "cdlLicense").map trimStr
    details := trimmedVal body "details" }

/-- The own properties of the `specialtyCategories` object literal
(`src/server.js` lines 136-142). -/
def specialtyCategoriesOwn (c : String) : Option String :=
  if c = "A" then some "Management & Operations"
  else if c = "B" then some "Technical & Maintenance Jobs"
  else if c = "C" then some "Snow & Wind Services"
  else if c = "D" then some "Fleet Vehicle Operator Roles"
  else if c = "E" then some "Fleet Drivers & Other Support Jobs"
  else none

/-- The function-valued `Object.prototype` members that a plain object
literal inherits (besides `constructor` and the `__proto__` accessor,
which are handled separately because they stringify differently). -/
def objectPrototypeFunctionProps : List String :=
  ["hasOwnProperty", "isPrototypeOf", "propertyIsEnumerable",
   "toLocaleString", "toString", "valueOf",
   "__defineGetter__", "__defineSetter__", "__lookupGetter__", "__lookupSetter__"]

/-- What a property read on a plain object literal finds on the
prototype chain when the name is no own key: the inherited
`Object.prototype` member, given here as the string it interpolates to
in a Node (V8) template literal — `constructor` is the `Object`
function, `__proto__` evaluates to `Object.prototype` itself, and the
other members are native functions.  `none` models `undefined`. -/
def objectPrototypeMemberString (c : String) : Option String :=
  if c = "constructor" then some "function Object() \x7b [native code] \x7d"
  else if c = "__proto__" then some "[object Object]"
  else if objectPrototypeFunctionProps.contains c then
    some ("function " ++ c ++ "() \x7b [native code] \x7d")
  else none

/-- Model of the JS property read `specialtyCategories[specialtyCategory]`
(`src/server.js` line 144): own properties first, then the prototype
chain.  An inherited hit is a truthy non-string value; since the
handler only ever interpolates it into the two templates, it is
represented directly by its interpolated string. -/
def specialtyCategories (c : String) : Option String :=
  match specialtyCategoriesOwn c with
  | some l => some l
  | none => objectPrototypeMemberString c

/-- The rendered category label:
`specialtyCategories[specialtyCategory] || specialtyCategory`
(`src/server.js` line 144).  The `|| specialtyCategory` fallback fires
only when the property read yields `undefined`, i.e. for codes that are
neither own keys nor inherited `Object.prototype` member names. -/
def categoryLabel (c : String) : String :=
  (specialtyCategories c).getD c

/-- The admin-template CDL fragment
`cdlLicense ? "<p>...CDL License...</p>" : ""`; absent (`undefined`) and
empty values are both falsy in the source. -/
def cdlFragmentAdmin (c : Option String) : String :=
  match c with
  | none => ""
  | some s => if s = "" then "" else "<p><strong>CDL License:</strong> " ++ s ++ "</p>"

/-- The worker-template CDL fragment
`cdlLicense ? "<p>...License...</p>" : ""`. -/
def cdlFragmentWorker (c : Option String) : String :=
  match c with
  | none => ""
  | some s => if s = "" then "" else "<p><strong>License:</strong> " ++ s ++ "</p>"

/-- The template expression `details || "No additional details provided"`
of the fleet-worker admin template. -/
def detailsOrDefault (d : String) : String :=
  if d = "" then "No additional details provided" else d

/-- The admin notification of the fleet-worker endpoint
(`src/server.js` lines 147-169). -/
def adminMailOptionsFW (cfg : Config) (r : FleetWorkerRecord) : EmailMessage :=
  { fromAddr := cfg.emailUser
    toAddr := adminAddr cfg
    subject := "New Fleet Worker Application"
    replyTo := some r.email
    html := "
                <div style=\"font-family: Arial, sans-serif; max-width: 600px; margin: 0 auto;\">
                    <h2 style=\"color: #b35c0d;\">New Fleet Worker Application</h2>
                    <div style=\"background: #f5f5f5; padding: 20px; border-radius: 5px;\">
                        <p><strong>Name:</strong> " ++ r.firstName ++ " " ++ r.lastName ++ "</p>
                        <p><strong>Email:</strong> " ++ r.email ++ "</p>
                        <p><strong>Phone:</strong> " ++ r.phone ++ "</p>
                        <p><strong>City:</strong> " ++ r.city ++ "</p>
                        <p><strong>Specialty Category:</strong> " ++ r.specialtyCategory ++ " - " ++
      categoryLabel r.specialtyCategory ++ "</p>
                        <p><strong>Specific Specialty:</strong> " ++ r.specialtySubcategory ++ "</p>
                        <p><strong>Years of Experience:</strong> " ++ r.yearsOfExperience ++ "</p>
                        " ++ cdlFragmentAdmin r.cdlLicense ++ "
                        <h3>Additional Details:</h3>
                        <p style=\"white-space: pre-wrap;\">" ++ detailsOrDefault r.details ++ "</p>
                    </div>
                </div>
            " }

/-- The acknowledgment to the fleet worker (`src/server.js` lines
172-195). -/
def workerMailOptionsFW (cfg : Config) (r : FleetWorkerRecord) : EmailMessage :=
  { fromAddr := cfg.emailUser
    toAddr := r.email
    subject := "Fleet Worker Application Received"
    replyTo := none
    html := "
                <div style=\"font-family: Arial, sans-serif; max-width: 600px; margin: 0 auto;\">
                    <h2 style=\"color: #b35c0d;\">Thank you for your application!</h2>
                    <p>Dear " ++ r.firstName ++ " " ++ r.lastName ++ ",</p>
                    <div style=\"background: #f5f5f5; padding: 20px; border-radius: 5px;\">
                        <p>We have received your fleet worker application from " ++ r.city ++ " and will review it shortly.
                           Our team will contact you within 2-3 business days.</p>

                        <h3>Application Summary:</h3>
                        <p><strong>Location:</strong> " ++ r.city ++ "</p>
                        <p><strong>Specialty:</strong> " ++ categoryLabel r.specialtyCategory ++ "</p>
                        <p><strong>Specific Role:</strong> " ++ r.specialtySubcategory ++ "</p>
                        <p><strong>Experience:</strong> " ++ r.yearsOfExperience ++ " years</p>
                        " ++ cdlFragmentWorker r.cdlLicense ++ "
                    </div>
                    <p>If you have any questions, please don\x27t hesitate to contact us.</p>
                    <p>Best regards,<br>Fleet Armor Team</p>
                </div>
            " }

/-- The admin notification of the guard endpoint
(`src/unnamed/part_000` lines 130-150). -/
def adminMailOptionsGuard (cfg : Config) (r : GuardRecord) : EmailMessage :=
  { fromAddr := cfg.emailUser
    toAddr := adminAddr cfg
    subject := "New Security Guard Application"
    replyTo := some r.email
    html := "
                <div style=\"font-family: Arial, sans-serif; max-width: 600px; margin: 0 auto;\">
                    <h2 style=\"color: #333;\">New Security Guard Application</h2>
                    <div style=\"background: #f5f5f5; padding: 20px; border-radius: 5px;\">
                        <p><strong>Full Name:</strong> " ++ r.fullName ++ "</p>
                        <p><strong>Email:</strong> " ++ r.email ++ "</p>
                        <p><strong>Phone:</strong> " ++ r.phone ++ "</p>
                        <p><strong>City:</strong> " ++ r.city ++ "</p>
                        <p><strong>License:</strong> " ++ r.license ++ "</p>
                        <p><strong>Years of Experience:</strong> " ++ r.yearsOfExperience ++ "</p>
                        <h3>Additional Details:</h3>
                        <p style=\"white-space: pre-wrap;\">" ++ r.details ++ "</p>
                    </div>
                </div>
            " }

/-- The acknowledgment to the guard applicant (`src/unnamed/part_000`
lines 153-174). -/
def applicantMailOptionsGuard (cfg : Config) (r : GuardRecord) : EmailMessage :=
  { fromAddr := cfg.emailUser
    toAddr := r.email
    subject := "Application Received - GuardArmor Security"
    replyTo := none
    html := "
                <div style=\"font-family: Arial, sans-serif; max-width: 600px; margin: 0 auto;\">
                    <h2 style=\"color: #333;\">Thank you for your application!</h2>
                    <p>Dear " ++ r.fullName ++ ",</p>
                    <div style=\"background: #f5f5f5; padding: 20px; border-radius: 5px;\">
                        <p>We have received your security guard application and will review it shortly.
                           Our team will contact you within 2-3 business days.</p>

                        <h3>Application Details:</h3>
                        <p><strong>License:</strong> " ++ r.license ++ "</p>
                        <p><strong>Years of Experience:</strong> " ++ r.yearsOfExperience ++ "</p>
                        <p><strong>City:</strong> " ++ r.city ++ "</p>
                    </div>
                    <p>If you have any questions, please don\x27t hesitate to contact us.</p>
                    <p>Best regards,<br>Guard Armor Team</p>
                </div>
            " }

/-- The admin notification of the part_000 company endpoint
(`src/unnamed/part_000` lines 211-233). -/
def adminMailOptionsCompany (cfg : Config) (r : CompanyRecord) : EmailMessage :=
  { fromAddr := cfg.emailUser
    toAddr := adminAddr cfg
    subject := "New Company Security Request"
    replyTo := some r.email
    html := "
                <div style=\"font-family: Arial, sans-serif; max-width: 600px; margin: 0 auto;\">
                    <h2 style=\"color: #333;\">New Company Security Request</h2>
                    <div style=\"background: #f5f5f5; padding: 20px; border-radius: 5px;\">
                        <p><strong>Company:</strong> " ++ r.companyName ++ "</p>
                        <p><strong>Contact:</strong> " ++ r.firstName ++ " " ++ r.lastName ++ "</p>
                        <p><strong>Email:</strong> " ++ r.email ++ "</p>
                        <p><strong>Phone:</strong> " ++ r.phone ++ "</p>
                        <p><strong>City:</strong> " ++ r.city ++ "</p>
                        <p><strong>Security Guard Type:</strong> " ++ r.securityGuardType ++ "</p>
                        <p><strong>Number of Guards:</strong> " ++ r.numberOfGuards ++ "</p>
                        <p><strong>Service Type:</strong> " ++ r.service ++ "</p>
                        <h3>Additional Details:</h3>
                        <p style=\"white-space: pre-wrap;\">" ++ r.details ++ "</p>
                    </div>
                </div>
            " }

/-- The acknowledgment to the company (`src/unnamed/part_000` lines
236-258). -/
def companyMailOptionsCompany (cfg : Config) (r : CompanyRecord) : EmailMessage :=
  { fromAddr := cfg.emailUser
    toAddr := r.email
    subject := "Security Service Request Received - Guard Armor"
    replyTo := none
    html := "
                <div style=\"font-family: Arial, sans-serif; max-width: 600px; margin: 0 auto;\">
                    <h2 style=\"color: #333;\">Thank you for your security service request!</h2>
                    <p>Dear " ++ r.firstName ++ " " ++ r.lastName ++ ",</p>
                    <div style=\"background: #f5f5f5; padding: 20px; border-radius: 5px;\">
                        <p>We have received your security service request for " ++ r.companyName ++ " and will review it shortly.
                           Our team will contact you within 24-48 business hours.</p>

                        <h3>Request Details:</h3>
                        <p><strong>Security Guard Type:</strong> " ++ r.securityGuardType ++ "</p>
                        <p><strong>Number of Guards:</strong> " ++ r.numberOfGuards ++ "</p>
                        <p><strong>Service Type:</strong> " ++ r.service ++ "</p>
                        <p><strong>City:</strong> " ++ r.city ++ "</p>
                    </div>
                    <p>If you have any immediate questions, please don\x27t hesitate to contact us.</p>
                    <p>Best regards,<br>Guard Armor Team</p>
                </div>
            " }

/-- The JSON body of a handler response: a success confirmation
`\x7bmessage, status\x7d`, a validation failure `\x7berrors: [...]\x7d`,
or an error-handler body `\x7berror\x7d`. -/
inductive ResponseBody where
  | success (message statusStr : String)
  | errors (entries : List ValidationErrorEntry)
  | errorMsg (error : String)
deriving DecidableEq

/-- An HTTP response: status code plus JSON body. -/
structure HttpResponse where
  status : Nat
  body : ResponseBody
deriving DecidableEq

/-- A JavaScript `Error` as seen by the centralized error handler: its
`message` and its optional `status` property (set e.g. by the body-parsing
middleware, absent on transport errors). -/
structure JsError where
  message : String
  status : Option Nat
deriving DecidableEq

/-- The centralized error handler (`src/server.js` lines 106-119 and
`src/unnamed/part_000` lines 102-115): responds `err.status || 500` with
`\x7berror\x7d`, the message being the generic `"An error occurred"` in
production mode and `err.message` otherwise. -/
def errorHandler (cfg : Config) (err : JsError) : HttpResponse :=
  { status := err.status.getD 500
    body := .errorMsg (if cfg.production then "An error occurred" else err.message) }

/-- The outcome of one `transporter.sendMail` dispatch: `none` on
success, `some msg` when delivery fails with error message `msg` (a
nodemailer transport error, which carries no express `status`
property). -/
def SendOutcome : Type := EmailMessage → Option String

/-- The fleet-worker handler (`src/server.js` lines 122-218): validate,
on failure respond 400 with the violation list; otherwise build both
messages, dispatch both via `Promise.all` and respond 200 exactly when
both dispatches succeed, forwarding a delivery failure to the error
handler.  The second component lists the messages handed to `sendMail`,
in order. -/
def submitFleetWorker (cfg : Config) (send : SendOutcome) (body : FormBody) :
    HttpResponse × List EmailMessage :=
  if (fleetWorkerErrors body).isEmpty then
    let r := fleetWorkerRecord body
    let admin := adminMailOptionsFW cfg r
    let worker := workerMailOptionsFW cfg r
    match send admin, send worker with
    | none, none =>
        (⟨200, .success "Fleet worker application submitted successfully" "success"⟩,
         [admin, worker])
    | some e, _ => (errorHandler cfg ⟨e, none⟩, [admin, worker])
    | none, some e => (errorHandler cfg ⟨e, none⟩, [admin, worker])
  else (⟨400, .errors (fleetWorkerErrors body)⟩, [])

/-- The guard handler (`src/unnamed/part_000` lines 118-194). -/
def submitGuard (cfg : Config) (send : SendOutcome) (body : FormBody) :
    HttpResponse × List EmailMessage :=
  if (guardErrors body).isEmpty then
    let r := guardRecord body
    let admin := adminMailOptionsGuard cfg r
    let applicant := applicantMailOptionsGuard cfg r
    match send admin, send applicant with
    | none, none =>
        (⟨200, .success "Application submitted successfully" "success"⟩,
         [admin, applicant])
    | some e, _ => (errorHandler cfg ⟨e, none⟩, [admin, applicant])
    | none, some e => (errorHandler cfg ⟨e, none⟩, [admin, applicant])
  else (⟨400, .errors (guardErrors body)⟩, [])

/-- The part_000 company handler (`src/unnamed/part_000` lines
196-279). -/
def submitCompany (cfg : Config) (send : SendOutcome) (body : FormBody) :
    HttpResponse × List EmailMessage :=
  if (companyErrors body).isEmpty then
    let r := companyRecord body
    let admin := adminMailOptionsCompany cfg r
    let company := companyMailOptionsCompany cfg r
    match send admin, send company with
    | none, none =>
        (⟨200, .success "Request submitted successfully" "success"⟩,
         [admin, company])
    | some e, _ => (errorHandler cfg ⟨e, none⟩, [admin, company])
    | none, some e => (errorHandler cfg ⟨e, none⟩, [admin, company])
  else (⟨400, .errors (companyErrors body)⟩, [])

/-- Modelled from the spec: sanitized body of a quote request.  The quote
endpoint itself is missing from `src/` — `src/unnamed/part_000` line 57
registers its rate limiter and line 72 mentions the already-existing
`validateQuoteRequest`, but neither the chain nor the
`app.post('/api/submit-quote')` handler is present — so the quote form is
reconstructed from §6 of the spec and its concrete scenarios A and B. -/
structure QuoteRecord where
  name : String
  email : String
  phone : String
  company : Option String
  details : String
deriving DecidableEq

/-- Modelled from the spec: the violations of the missing
`validateQuoteRequest` chain.  §6 lists `name`, `email`, `phone`,
`details` as required and `company` as optional; scenario B shows a
one-character name rejected as too short, an email-format check, the
sibling phone pattern, and `details` rejected when empty. -/
def quoteErrors (body : FormBody) : List ValidationErrorEntry :=
  notEmptyErrs "name" "Name is required" (trimmedVal body "name") ++
  lenBetweenErrs "name" "Name must be between 2 and 100 characters" 2 100
    (trimmedVal body "name") ++
  emailChainErrs "email" "Valid email is required" (trimmedVal body "email") ++
  phoneChainErrs "phone" "Valid phone number is required" (trimmedVal body "phone") ++
  notEmptyErrs "details" "Details are required" (trimmedVal body "details") ++
  lenMaxErrs "details" "Details must not exceed 1000 characters" 1000
    (trimmedVal body "details")

/-- Modelled from the spec: the sanitized quote body (every field
trimmed, the email normalized, as in the sibling chains). -/
def quoteRecord (body : FormBody) : QuoteRecord :=
  { name := trimmedVal body "name"
    email := lowerStr (trimmedVal body "email")
    phone := trimmedVal body "phone"
    company := (body "company").map trimStr
    details := trimmedVal body "details" }

/-- Modelled from the spec: the admin notification of the missing quote
handler.  Scenario A fixes `to` = configured admin address and `replyTo`
= the normalized submitter email; the template summarizes the submission
like the sibling admin templates. -/
def adminMailOptionsQuote (cfg : Config) (r : QuoteRecord) : EmailMessage :=
  { fromAddr := cfg.emailUser
    toAddr := adminAddr cfg
    subject := "New Quote Request"
    replyTo := some r.email
    html := "
                <div>
                    <h2>New Quote Request</h2>
                    <p><strong>Name:</strong> " ++ r.name ++ "</p>
                    <p><strong>Email:</strong> " ++ r.email ++ "</p>
                    <p><strong>Phone:</strong> " ++ r.phone ++ "</p>
                    <h3>Additional Details:</h3>
                    <p>" ++ r.details ++ "</p>
                </div>
            " }

/-- Modelled from the spec: the acknowledgment of the missing quote
handler, sent to the submitter like the sibling acknowledgments. -/
def clientMailOptionsQuote (cfg : Config) (r : QuoteRecord) : EmailMessage :=
  { fromAddr := cfg.emailUser
    toAddr := r.email
    subject := "Quote Request Received"
    replyTo := none
    html := "
                <div>
                    <h2>Thank you for your quote request!</h2>
                    <p>Dear " ++ r.name ++ ",</p>
                    <p>We have received your quote request and will review it shortly.</p>
                </div>
            " }

/-- Modelled from the spec: the missing quote handler, with the shared
handler shape of §4.4 and scenario A's success body
`\x7bmessage: "Quote submitted successfully", status: "success"\x7d`. -/
def submitQuote (cfg : Config) (send : SendOutcome) (body : FormBody) :
    HttpResponse × List EmailMessage :=
  if (quoteErrors body).isEmpty then
    let r := quoteRecord body
    let admin := adminMailOptionsQuote cfg r
    let client := clientMailOptionsQuote cfg r
    match send admin, send client with
    | none, none =>
        (⟨200, .success "Quote submitted successfully" "success"⟩, [admin, client])
    | some e, _ => (errorHandler cfg ⟨e, none⟩, [admin, client])
    | none, some e => (errorHandler cfg ⟨e, none⟩, [admin, client])
  else (⟨400, .errors (quoteErrors body)⟩, [])

/-- The required guard fields validated with a rejecting check
(`notEmpty`, `isEmail` or the phone pattern); `details` has only a
maximum-length check. -/
def guardRequiredFields : List String :=
  ["fullName", "email", "phone", "city", "license", "yearsOfExperience"]

/-- The required part_000 company fields validated with a rejecting
check. -/
def companyRequiredFields : List String :=
  ["companyName", "email", "phone", "firstName", "lastName", "city",
   "securityGuardType", "numberOfGuards", "service"]

/-- The required server.js company fields validated with a rejecting
check. -/
def companyServerRequiredFields : List String :=
  ["companyName", "email", "phone", "firstName", "lastName", "cityProvince", "majorArea"]

/-- The required fleet-worker fields validated with a rejecting check;
`details` has only a maximum-length check and `cdlLicense` is
optional. -/
def fleetWorkerRequiredFields : List String :=
  ["firstName", "lastName", "email", "phone", "city",
   "specialtyCategory", "specialtySubcategory", "yearsOfExperience"]

/-- The required quote fields (spec §6), all rejecting when empty. -/
def quoteRequiredFields : List String :=
  ["name", "email", "phone", "details"]

/-- A sample configuration in development mode. -/
def cfg0 : Config :=
  ⟨"ops@fleetarmor.com", some "admin@fleetarmor.com", false⟩

/-- A sample configuration in production mode without `ADMIN_EMAIL`. -/
def cfgProd : Config :=
  ⟨"ops@fleetarmor.com", none, true⟩

/-- A dispatch oracle on which every delivery succeeds. -/
def sendOk : SendOutcome := fun _ => none

/-- A request body with no fields at all. -/
def emptyBody : FormBody := mkBody []

/-- A fleet-worker submission that passes validation (no `cdlLicense`,
non-empty `details`). -/
def exFleetWorkerBody : FormBody :=
  mkBody [("firstName", "John"), ("lastName", "Smith"),
          ("email", "john@example.com"), ("phone", "1234567890"),
          ("city", "Toronto"), ("specialtyCategory", "A"),
          ("specialtySubcategory", "Dispatcher"),
          ("yearsOfExperience", "5"), ("details", "Hello")]

/-- A fleet-worker submission that passes validation (the
`specialtyCategory` chain only checks `notEmpty`) but whose category
code is the inherited `Object.prototype` property name `toString`. -/
def exFleetWorkerBodyToString : FormBody :=
  mkBody [("firstName", "John"), ("lastName", "Smith"),
          ("email", "john@example.com"), ("phone", "1234567890"),
          ("city", "Toronto"), ("specialtyCategory", "toString"),
          ("specialtySubcategory", "Dispatcher"),
          ("yearsOfExperience", "5"), ("details", "Hello")]

/-- A guard submission that passes validation although `details` is
absent. -/
def exGuardBody : FormBody :=
  mkBody [("fullName", "John Smith"), ("email", "john@example.com"),
          ("phone", "1234567890"), ("city", "Toronto"),
          ("license", "L123"), ("yearsOfExperience", "5")]

/-- The body of concrete scenario A of the spec. -/
def quoteBodyA : FormBody :=
  mkBody [("name", "Jo Smith"), ("email", " Jo@Example.com "),
          ("phone", "555-123-4567"), ("details", "Need a quote")]

/-- A concrete validated fleet-worker record without a CDL license. -/
def exFleetWorkerRec : FleetWorkerRecord :=
  ⟨"John", "Smith", "john@example.com", "1234567890", "Toronto",
   "A", "Dispatcher", "5", none, "Hello"⟩

/-- The same fleet-worker record with a present-but-empty CDL license
(the submitted body carried `cdlLicense: ""`). -/
def exFleetWorkerRecEmptyCdl : FleetWorkerRecord :=
  { exFleetWorkerRec with cdlLicense := some "" }

/-- The same fleet-worker record with CDL license `"X"`. -/
def exFleetWorkerRecCdlX : FleetWorkerRecord :=
  { exFleetWorkerRec with cdlLicense := some "X" }

/-- A concrete validated guard record. -/
def exGuardRec : GuardRecord :=
  ⟨"John Smith", "john@example.com", "1234567890", "Toronto", "L123", "5", ""⟩

/- Helper lemmas shared by the claim theorems. -/

theorem isEmailStr_empty : isEmailStr "" = false := rfl

theorem phoneMatches_empty : phoneMatches "" = false := rfl

/-- Splitting an append chain at its head atom. -/
theorem split_head (b c : String) : ∃ p q, b ++ c = p ++ (b ++ q) :=
  ⟨"", c, rfl⟩

/-- Pushing a leading atom of an append chain into the prefix of a
split. -/
theorem split_cons (a : String) {b s : String} (h : ∃ p q, s = p ++ (b ++ q)) :
    ∃ p q, a ++ s = p ++ (b ++ q) := by
  obtain ⟨p, q, hpq⟩ := h
  exact ⟨a ++ p, q, by rw [hpq, ← String.append_assoc]⟩

/-- C2 (counterexample): a guard submission whose `details` field is
missing entirely passes validation with no violation at all, because the
`details` chain of `validateGuardRequest` only checks a maximum length
(`isLength(\x7bmax: 1000\x7d)`), never `notEmpty`; the claim that an
empty or missing `details` yields an `Invalid` outcome naming `details`
is therefore false. -/
theorem details_missing_still_valid :
    exGuardBody "details" = none ∧ guardErrors exGuardBody = [] := by
  exact ⟨rfl, by decide⟩

/-- C2 (amended): for every form and every required field that is
validated with a rejecting check — every listed required field except the
`details` field of the guard, company and fleet-worker forms, which only
carries a maximum-length check — a submission in which that field is
empty or missing yields an `Invalid` outcome containing a violation
naming that exact field. -/
theorem required_field_empty_has_violation (body : FormBody) (f : String) :
    (f ∈ guardRequiredFields → trimmedVal body f = "" →
      hasViolation (guardErrors body) f) ∧
    (f ∈ companyRequiredFields → trimmedVal body f = "" →
      hasViolation (companyErrors body) f) ∧
    (f ∈ companyServerRequiredFields → trimmedVal body f = "" →
      hasViolation (companyServerErrors body) f) ∧
    (f ∈ fleetWorkerRequiredFields → trimmedVal body f = "" →
      hasViolation (fleetWorkerErrors body) f) ∧
    (f ∈ quoteRequiredFields → trimmedVal body f = "" →
      hasViolation (quoteErrors body) f) := by
  refine ⟨?_, ?_, ?_, ?_, ?_⟩ <;> intro hf h
  · simp only [guardRequiredFields, List.mem_cons, List.not_mem_nil, or_false] at hf
    rcases hf with rfl | rfl | rfl | rfl | rfl | rfl
    · exact ⟨fieldErr "fullName" "Full name is required" "", by
        simp [guardErrors, notEmptyErrs, h], rfl⟩
    · exact ⟨fieldErr "email" "Valid email is required" "", by
        simp [guardErrors, emailChainErrs, h, isEmailStr_empty], rfl⟩
    · exact ⟨fieldErr "phone" "Valid phone number is required" "", by
        simp [guardErrors, phoneChainErrs, h, phoneMatches_empty], rfl⟩
    · exact ⟨fieldErr "city" "City is required" "", by
        simp [guardErrors, notEmptyErrs, h], rfl⟩
    · exact ⟨fieldErr "license" "Security guard license is required" "", by
        simp [guardErrors, notEmptyErrs, h], rfl⟩
    · exact ⟨fieldErr "yearsOfExperience" "Years of experience is required" "", by
        simp [guardErrors, notEmptyErrs, h], rfl⟩
  · simp only [companyRequiredFields, List.mem_cons, List.not_mem_nil, or_false] at hf
    rcases hf with rfl | rfl | rfl | rfl | rfl | rfl | rfl | rfl | rfl
    · exact ⟨fieldErr "companyName" "Company name is required" "", by
        simp [companyErrors, notEmptyErrs, h], rfl⟩
    · exact ⟨fieldErr "email" "Valid email is required" "", by
        simp [companyErrors, emailChainErrs, h, isEmailStr_empty], rfl⟩
    · exact ⟨fieldErr "phone" "Valid phone number is required" "", by
        simp [companyErrors, phoneChainErrs, h, phoneMatches_empty], rfl⟩
    · exact ⟨fieldErr "firstName" "First name is required" "", by
        simp [companyErrors, notEmptyErrs, h], rfl⟩
    · exact ⟨fieldErr "lastName" "Last name is required" "", by
        simp [companyErrors, notEmptyErrs, h], rfl⟩
    · exact ⟨fieldErr "city" "City is required" "", by
        simp [companyErrors, notEmptyErrs, h], rfl⟩
    · exact ⟨fieldErr "securityGuardType" "Security guard type is required" "", by
        simp [companyErrors, notEmptyErrs, h], rfl⟩
    · exact ⟨fieldErr "numberOfGuards" "Number of guards is required" "", by
        simp [companyErrors, notEmptyErrs, h], rfl⟩
    · exact ⟨fieldErr "service" "Service type is required" "", by
        simp [companyErrors, notEmptyErrs, h], rfl⟩
  · simp only [companyServerRequiredFields, List.mem_cons, List.not_mem_nil, or_false] at hf
    rcases hf with rfl | rfl | rfl | rfl | rfl | rfl | rfl
    · exact ⟨fieldErr "companyName" "Company name is required" "", by
        simp [companyServerErrors, notEmptyErrs, h], rfl⟩
    · exact ⟨fieldErr "email" "Valid email is required" "", by
        simp [companyServerErrors, emailChainErrs, h, isEmailStr_empty], rfl⟩
    · exact ⟨fieldErr "phone" "Valid phone number is required" "", by
        simp [companyServerErrors, phoneChainErrs, h, phoneMatches_empty], rfl⟩
    · exact ⟨fieldErr "firstName" "First name is required" "", by
        simp [companyServerErrors, notEmptyErrs, h], rfl⟩
    · exact ⟨fieldErr "lastName" "Last name is required" "", by
        simp [companyServerErrors, notEmptyErrs, h], rfl⟩
    · exact ⟨fieldErr "cityProvince" "City & Province is required" "", by
        simp [companyServerErrors, notEmptyErrs, h], rfl⟩
    · exact ⟨fieldErr "majorArea" "Major area is required" "", by
        simp [companyServerErrors, notEmptyErrs, h], rfl⟩
  · simp only [fleetWorkerRequiredFields, List.mem_cons, List.not_mem_nil, or_false] at hf
    rcases hf with rfl | rfl | rfl | rfl | rfl | rfl | rfl | rfl
    · exact ⟨fieldErr "firstName" "First name is required" "", by
        simp [fleetWorkerErrors, notEmptyErrs, h], rfl⟩
    · exact ⟨fieldErr "lastName" "Last name is required" "", by
        simp [fleetWorkerErrors, notEmptyErrs, h], rfl⟩
    · exact ⟨fieldErr "email" "Valid email is required" "", by
        simp [fleetWorkerErrors, emailChainErrs, h, isEmailStr_empty], rfl⟩
    · exact ⟨fieldErr "phone" "Valid phone number is required" "", by
        simp [fleetWorkerErrors, phoneChainErrs, h, phoneMatches_empty], rfl⟩
    · exact ⟨fieldErr "city" "City is required" "", by
        simp [fleetWorkerErrors, notEmptyErrs, h], rfl⟩
    · exact ⟨fieldErr "specialtyCategory" "Specialty category is required" "", by
        simp [fleetWorkerErrors, notEmptyErrs, h], rfl⟩
    · exact ⟨fieldErr "specialtySubcategory" "Specialty subcategory is required" "", by
        simp [fleetWorkerErrors, notEmptyErrs, h], rfl⟩
    · exact ⟨fieldErr "yearsOfExperience" "Years of experience is required" "", by
        simp [fleetWorkerErrors, notEmptyErrs, h], rfl⟩
  · simp only [quoteRequiredFields, List.mem_cons, List.not_mem_nil, or_false] at hf
    rcases hf with rfl | rfl | rfl | rfl
    · exact ⟨fieldErr "name" "Name is required" "", by
        simp [quoteErrors, notEmptyErrs, h], rfl⟩
    · exact ⟨fieldErr "email" "Valid email is required" "", by
        simp [quoteErrors, emailChainErrs, h, isEmailStr_empty], rfl⟩
    · exact ⟨fieldErr "phone" "Valid phone number is required" "", by
        simp [quoteErrors, phoneChainErrs, h, phoneMatches_empty], rfl⟩
    · exact ⟨fieldErr "details" "Details are required" "", by
        simp [quoteErrors, notEmptyErrs, h], rfl⟩

/-- C2 (witness): applying the amended theorem to the body with no
fields at all, once per form. -/
theorem required_field_empty_has_violation_witness :
    hasViolation (guardErrors emptyBody) "fullName" ∧
    hasViolation (companyErrors emptyBody) "companyName" ∧
    hasViolation (companyServerErrors emptyBody) "cityProvince" ∧
    hasViolation (fleetWorkerErrors emptyBody) "specialtyCategory" ∧
    hasViolation (quoteErrors emptyBody) "details" :=
  ⟨(required_field_empty_has_violation emptyBody "fullName").1 (by decide) rfl,
   (required_field_empty_has_violation emptyBody "companyName").2.1 (by decide) rfl,
   (required_field_empty_has_violation emptyBody "cityProvince").2.2.1 (by decide) rfl,
   (required_field_empty_has_violation emptyBody "specialtyCategory").2.2.2.1 (by decide) rfl,
   (required_field_empty_has_violation emptyBody "details").2.2.2.2 (by decide) rfl⟩

/-- C9: rendering is deterministic — the mail options, and in particular
the two HTML documents, of both server variants depend only on the
validated record and on the configuration, so rendering the same record
twice yields byte-identical output. -/
theorem rendering_deterministic (cfg cfg' : Config) (r r' : FleetWorkerRecord)
    (g g' : GuardRecord) (hc : cfg = cfg') (hr : r = r') (hg : g = g') :
    adminMailOptionsFW cfg r = adminMailOptionsFW cfg' r' ∧
    workerMailOptionsFW cfg r = workerMailOptionsFW cfg' r' ∧
    adminMailOptionsGuard cfg g = adminMailOptionsGuard cfg' g' ∧
    applicantMailOptionsGuard cfg g = applicantMailOptionsGuard cfg' g' := by
  subst hc; subst hr; subst hg
  exact ⟨rfl, rfl, rfl, rfl⟩

/-- C9 (witness): the determinism theorem applied to a concrete record
and configuration. -/
theorem rendering_deterministic_witness :
    adminMailOptionsFW cfg0 exFleetWorkerRec = adminMailOptionsFW cfg0 exFleetWorkerRec ∧
    adminMailOptionsGuard cfg0 exGuardRec = adminMailOptionsGuard cfg0 exGuardRec :=
  ⟨(rendering_deterministic cfg0 cfg0 exFleetWorkerRec exFleetWorkerRec exGuardRec exGuardRec
      rfl rfl rfl).1,
   (rendering_deterministic cfg0 cfg0 exFleetWorkerRec exFleetWorkerRec exGuardRec exGuardRec
      rfl rfl rfl).2.2.1⟩

/-- C10 (counterexample): an error carrying a `status` property — as the
body-parsing middleware raises for an oversized body (413) — is answered
with that status, not with 500: the handler responds
`err.status || 500`. -/
theorem error_handler_not_always_500 :
    errorHandler cfgProd ⟨"request entity too large", some 413⟩ =
      ⟨413, .errorMsg "An error occurred"⟩ ∧ (413 : Nat) ≠ 500 :=
  ⟨rfl, by decide⟩

/-- C10 (amended): the centralized error handler responds with the
error's own `status` when it carries one and with 500 otherwise, and the
body is `\x7berror\x7d` with the fixed generic message in production mode
and the error's literal message otherwise. -/
theorem error_handler_response (cfg : Config) (err : JsError) :
    (err.status = none → (errorHandler cfg err).status = 500) ∧
    (∀ s, err.status = some s → (errorHandler cfg err).status = s) ∧
    (cfg.production = true →
      (errorHandler cfg err).body = .errorMsg "An error occurred") ∧
    (cfg.production = false →
      (errorHandler cfg err).body = .errorMsg err.message) := by
  refine ⟨fun h => ?_, fun s h => ?_, fun h => ?_, fun h => ?_⟩ <;>
    simp [errorHandler, h]

/-- C10 (witness): a status-less development-mode delivery error is
answered 500 with the literal message. -/
theorem error_handler_response_witness :
    (errorHandler cfg0 ⟨"connection refused", none⟩).status = 500 ∧
    (errorHandler cfg0 ⟨"connection refused", none⟩).body =
      .errorMsg "connection refused" :=
  ⟨(error_handler_response cfg0 ⟨"connection refused", none⟩).1 rfl,
   (error_handler_response cfg0 ⟨"connection refused", none⟩).2.2.2 rfl⟩

/-- C1: on every valid submission the fleet-worker and guard handlers
hand exactly two messages to the dispatcher — first the admin
notification addressed to the configured admin address, then the
acknowledgment addressed to the submitter — and the response is 200
exactly when both dispatches succeed (a `Promise.all` join: either
failure is forwarded to the error handler, which answers 500 for a
status-less transport error). -/
theorem valid_submission_two_dispatches (cfg : Config) (send : SendOutcome)
    (b1 b2 : FormBody)
    (h1 : fleetWorkerErrors b1 = []) (h2 : guardErrors b2 = []) :
    ((submitFleetWorker cfg send b1).2 =
       [adminMailOptionsFW cfg (fleetWorkerRecord b1),
        workerMailOptionsFW cfg (fleetWorkerRecord b1)] ∧
     (adminMailOptionsFW cfg (fleetWorkerRecord b1)).toAddr = adminAddr cfg ∧
     (workerMailOptionsFW cfg (fleetWorkerRecord b1)).toAddr =
       (fleetWorkerRecord b1).email ∧
     ((submitFleetWorker cfg send b1).1.status = 200 ↔
       send (adminMailOptionsFW cfg (fleetWorkerRecord b1)) = none ∧
       send (workerMailOptionsFW cfg (fleetWorkerRecord b1)) = none)) ∧
    ((submitGuard cfg send b2).2 =
       [adminMailOptionsGuard cfg (guardRecord b2),
        applicantMailOptionsGuard cfg (guardRecord b2)] ∧
     (adminMailOptionsGuard cfg (guardRecord b2)).toAddr = adminAddr cfg ∧
     (applicantMailOptionsGuard cfg (guardRecord b2)).toAddr =
       (guardRecord b2).email ∧
     ((submitGuard cfg send b2).1.status = 200 ↔
       send (adminMailOptionsGuard cfg (guardRecord b2)) = none ∧
       send (applicantMailOptionsGuard cfg (guardRecord b2)) = none)) := by
  constructor
  · refine ⟨?_, rfl, rfl, ?_⟩ <;>
    · rcases ha : send (adminMailOptionsFW cfg (fleetWorkerRecord b1)) with _ | e <;>
      rcases hw : send (workerMailOptionsFW cfg (fleetWorkerRecord b1)) with _ | e' <;>
      simp [submitFleetWorker, h1, ha, hw, errorHandler]
  · refine ⟨?_, rfl, rfl, ?_⟩ <;>
    · rcases ha : send (adminMailOptionsGuard cfg (guardRecord b2)) with _ | e <;>
      rcases hw : send (applicantMailOptionsGuard cfg (guardRecord b2)) with _ | e' <;>
      simp [submitGuard, h2, ha, hw, errorHandler]

/-- C1 (witness): the dispatch theorem applied to concrete valid
fleet-worker and guard submissions with an always-succeeding
transport. -/
theorem valid_submission_two_dispatches_witness :
    (submitFleetWorker cfg0 sendOk exFleetWorkerBody).2.length = 2 ∧
    (submitFleetWorker cfg0 sendOk exFleetWorkerBody).1.status = 200 ∧
    (submitGuard cfg0 sendOk exGuardBody).2.length = 2 ∧
    (submitGuard cfg0 sendOk exGuardBody).1.status = 200 := by
  have h := valid_submission_two_dispatches cfg0 sendOk exFleetWorkerBody exGuardBody
    (by decide) (by decide)
  refine ⟨?_, ?_, ?_, ?_⟩
  · rw [h.1.1]; rfl
  · exact h.1.2.2.2.mpr ⟨rfl, rfl⟩
  · rw [h.2.1]; rfl
  · exact h.2.2.2.2.mpr ⟨rfl, rfl⟩

/-- C3: concrete scenario A — the quote submission
`\x7bname: "Jo Smith", email: " Jo@Example.com ", phone: "555-123-4567",
details: "Need a quote"\x7d` is answered 200 with
`\x7bmessage: "Quote submitted successfully", status: "success"\x7d`, and
the admin message goes to the configured admin address with reply-to
`"jo@example.com"` (the trimmed, lowercased submitted email).  The quote
endpoint is modelled from the spec because it is absent from `src/`. -/
theorem quote_scenario_a (cfg : Config) :
    (submitQuote cfg sendOk quoteBodyA).1 =
      ⟨200, .success "Quote submitted successfully" "success"⟩ ∧
    (adminMailOptionsQuote cfg (quoteRecord quoteBodyA)).toAddr = adminAddr cfg ∧
    (adminMailOptionsQuote cfg (quoteRecord quoteBodyA)).replyTo =
      some "jo@example.com" :=
  ⟨rfl, rfl, rfl⟩

/-- C4 (counterexample): a validation failure is answered 400 with a
non-empty `errors` array, but its entries are express-validator error
objects whose JSON keys are `type`, `value`, `msg`, `path`, `location`
(`param` instead of `path` in express-validator 6) — there is no `field`
key and no `message` key as the claim states. -/
theorem validation_error_entry_keys :
    (submitGuard cfg0 sendOk emptyBody).1.status = 400 ∧
    guardErrors emptyBody ≠ [] ∧
    "field" ∉ entryJsonKeys ∧ "message" ∉ entryJsonKeys := by
  decide

/-- C4 (amended): whenever validation fails, the response is 400 with
body `\x7berrors: [...]\x7d` holding the validator's entries, each of
which names the offending field under the `path` key (`param` in
express-validator 6) and carries its message under the `msg` key. -/
theorem validation_failure_response (cfg : Config) (send : SendOutcome)
    (b1 b2 : FormBody)
    (h1 : fleetWorkerErrors b1 ≠ []) (h2 : guardErrors b2 ≠ []) :
    (submitFleetWorker cfg send b1).1 = ⟨400, .errors (fleetWorkerErrors b1)⟩ ∧
    (submitGuard cfg send b2).1 = ⟨400, .errors (guardErrors b2)⟩ ∧
    "msg" ∈ entryJsonKeys ∧ "path" ∈ entryJsonKeys ∧
    "field" ∉ entryJsonKeys ∧ "message" ∉ entryJsonKeys := by
  refine ⟨?_, ?_, by decide, by decide, by decide, by decide⟩
  · simp [submitFleetWorker, List.isEmpty_iff, h1]
  · simp [submitGuard, List.isEmpty_iff, h2]

/-- C4 (witness): the amended theorem applied to the empty body. -/
theorem validation_failure_response_witness :
    (submitFleetWorker cfg0 sendOk emptyBody).1.status = 400 ∧
    (submitGuard cfg0 sendOk emptyBody).1.status = 400 := by
  have h := validation_failure_response cfg0 sendOk emptyBody emptyBody
    (by decide) (by decide)
  exact ⟨by rw [h.1], by rw [h.2.1]⟩

/-- C5: when at least one field violates its constraint, the handler
responds 400 carrying the validator's full ordered violation list and
hands nothing to the dispatcher (the list of dispatch attempts is
empty), shown for the fleet-worker and part_000 company handlers. -/
theorem validation_failure_no_dispatch (cfg : Config) (send : SendOutcome)
    (b1 b2 : FormBody)
    (h1 : fleetWorkerErrors b1 ≠ []) (h2 : companyErrors b2 ≠ []) :
    submitFleetWorker cfg send b1 = (⟨400, .errors (fleetWorkerErrors b1)⟩, []) ∧
    submitCompany cfg send b2 = (⟨400, .errors (companyErrors b2)⟩, []) := by
  constructor
  · simp [submitFleetWorker, List.isEmpty_iff, h1]
  · simp [submitCompany, List.isEmpty_iff, h2]

/-- C5 (witness): the no-dispatch theorem applied to the empty body. -/
theorem validation_failure_no_dispatch_witness :
    (submitFleetWorker cfg0 sendOk emptyBody).2 = [] ∧
    (submitCompany cfg0 sendOk emptyBody).2 = [] := by
  have h := validation_failure_no_dispatch cfg0 sendOk emptyBody emptyBody
    (by decide) (by decide)
  exact ⟨by rw [h.1], by rw [h.2]⟩

/-- C6: the fleet-worker record's email is the submitted value trimmed
and lowercased (the `.trim()` and `.normalizeEmail()` sanitizers persist
into `req.body`), and that normalized value — not the raw input — is what
the constructed messages use: it is the admin message's reply-to, the
acknowledgment's recipient, and the address embedded in the admin HTML
document. -/
theorem email_normalized_everywhere (cfg : Config) (body : FormBody) :
    (fleetWorkerRecord body).email = lowerStr (trimStr ((body "email").getD "")) ∧
    (adminMailOptionsFW cfg (fleetWorkerRecord body)).replyTo =
      some (fleetWorkerRecord body).email ∧
    (workerMailOptionsFW cfg (fleetWorkerRecord body)).toAddr =
      (fleetWorkerRecord body).email ∧
    ∃ p q, (adminMailOptionsFW cfg (fleetWorkerRecord body)).html =
      p ++ ((fleetWorkerRecord body).email ++ q) := by
  refine ⟨rfl, rfl, rfl, ?_⟩
  simp only [adminMailOptionsFW, String.append_assoc]
  repeat (first | exact split_head _ _ | apply split_cons)

/-- C7 (counterexample): the fleet-worker submission with
`specialtyCategory: "toString"` passes validation (the chain only checks
`notEmpty`), the code has no entry in the category map, yet the rendered
label is not the raw code: the JS property read
`specialtyCategories["toString"]` traverses the prototype chain, finds
the inherited truthy `Object.prototype.toString`, the
`|| specialtyCategory` fallback never fires, and the template
interpolates the inherited function instead. -/
theorem category_label_prototype_leak :
    fleetWorkerErrors exFleetWorkerBodyToString = [] ∧
    (fleetWorkerRecord exFleetWorkerBodyToString).specialtyCategory = "toString" ∧
    specialtyCategoriesOwn "toString" = none ∧
    categoryLabel "toString" = "function toString() \x7b [native code] \x7d" ∧
    categoryLabel "toString" ≠ "toString" := by
  decide

/-- C7 (amended): rendering resolves the specialty category through the
lookup — code `"A"` maps to `"Management & Operations"`, and a code that
is neither an own key of the map nor the name of an inherited
`Object.prototype` member defaults to the raw code itself; but for an
inherited member name (such as `toString`, which passes the
notEmpty-only validation) the property read finds the inherited truthy
value, the fallback never fires, and the label is that member's
interpolated string instead of the raw code.  The admin HTML document
embeds the resolved label either way. -/
theorem category_label_in_admin_html (cfg : Config) (r : FleetWorkerRecord) :
    categoryLabel "A" = "Management & Operations" ∧
    (∀ c, specialtyCategoriesOwn c = none → objectPrototypeMemberString c = none →
      categoryLabel c = c) ∧
    (∀ c m, specialtyCategoriesOwn c = none → objectPrototypeMemberString c = some m →
      categoryLabel c = m) ∧
    ∃ p q, (adminMailOptionsFW cfg r).html =
      p ++ (categoryLabel r.specialtyCategory ++ q) := by
  refine ⟨rfl, ?_, ?_, ?_⟩
  · intro c hown hproto
    simp [categoryLabel, specialtyCategories, hown, hproto]
  · intro c m hown hproto
    simp [categoryLabel, specialtyCategories, hown, hproto]
  · simp only [adminMailOptionsFW, String.append_assoc]
    repeat (first | exact split_head _ _ | apply split_cons)

/-- C7 (witness): the label theorem applied to the genuinely unmapped
code `"Z"` (fallback fires) and to the inherited name `"toString"`
(fallback never fires). -/
theorem category_label_in_admin_html_witness :
    categoryLabel "Z" = "Z" ∧
    categoryLabel "toString" = "function toString() \x7b [native code] \x7d" :=
  ⟨(category_label_in_admin_html cfg0 exFleetWorkerRec).2.1 "Z" rfl rfl,
   (category_label_in_admin_html cfg0 exFleetWorkerRec).2.2.1 "toString"
     "function toString() \x7b [native code] \x7d" rfl (by decide)⟩

/-- C8 (counterexample): a record whose `cdlLicense` is present but
empty — the submitted body carried `cdlLicense: ""`, which the optional
chain accepts — renders exactly as if the field were absent: the template
guard `cdlLicense ? ... : ""` treats the empty string as falsy, so no
CDL fragment appears although the field is present, contradicting the
claim that a present field's fragment always appears. -/
theorem cdl_present_empty_omitted :
    exFleetWorkerRecEmptyCdl.cdlLicense = some "" ∧
    exFleetWorkerRec.cdlLicense = none ∧
    adminMailOptionsFW cfg0 exFleetWorkerRecEmptyCdl =
      adminMailOptionsFW cfg0 exFleetWorkerRec ∧
    workerMailOptionsFW cfg0 exFleetWorkerRecEmptyCdl =
      workerMailOptionsFW cfg0 exFleetWorkerRec :=
  ⟨rfl, rfl, rfl, rfl⟩

/-- C8 (amended): when `cdlLicense` is absent or empty, both HTML
documents are identical to those of the record without the field (the
fragment is omitted entirely, no empty element); when it is present and
non-empty, each document contains the fragment carrying its value. -/
theorem cdl_fragment_rendering (cfg : Config) (r : FleetWorkerRecord) :
    (r.cdlLicense = none ∨ r.cdlLicense = some "" →
      adminMailOptionsFW cfg r =
        adminMailOptionsFW cfg { r with cdlLicense := none } ∧
      workerMailOptionsFW cfg r =
        workerMailOptionsFW cfg { r with cdlLicense := none }) ∧
    (∀ s, r.cdlLicense = some s → s ≠ "" →
      cdlFragmentAdmin r.cdlLicense =
        "<p><strong>CDL License:</strong> " ++ s ++ "</p>" ∧
      cdlFragmentWorker r.cdlLicense =
        "<p><strong>License:</strong> " ++ s ++ "</p>" ∧
      (∃ p q, (adminMailOptionsFW cfg r).html =
        p ++ (cdlFragmentAdmin r.cdlLicense ++ q)) ∧
      (∃ p q, (workerMailOptionsFW cfg r).html =
        p ++ (cdlFragmentWorker r.cdlLicense ++ q))) := by
  constructor
  · rintro (h | h) <;>
      exact ⟨by simp [adminMailOptionsFW, cdlFragmentAdmin, h],
             by simp [workerMailOptionsFW, cdlFragmentWorker, h]⟩
  · intro s hs hne
    refine ⟨by simp [cdlFragmentAdmin, hs, hne], by simp [cdlFragmentWorker, hs, hne],
      ?_, ?_⟩
    · simp only [adminMailOptionsFW, String.append_assoc]
      repeat (first | exact split_head _ _ | apply split_cons)
    · simp only [workerMailOptionsFW, String.append_assoc]
      repeat (first | exact split_head _ _ | apply split_cons)

/-- C8 (witness): the fragment theorem applied to the record with the
empty CDL value and to the record with CDL value `"X"`. -/
theorem cdl_fragment_rendering_witness :
    (adminMailOptionsFW cfg0 exFleetWorkerRecEmptyCdl =
       adminMailOptionsFW cfg0 { exFleetWorkerRecEmptyCdl with cdlLicense := none } ∧
     workerMailOptionsFW cfg0 exFleetWorkerRecEmptyCdl =
       workerMailOptionsFW cfg0 { exFleetWorkerRecEmptyCdl with cdlLicense := none }) ∧
    cdlFragmentAdmin exFleetWorkerRecCdlX.cdlLicense =
      "<p><strong>CDL License:</strong> " ++ "X" ++ "</p>" :=
  ⟨(cdl_fragment_rendering cfg0 exFleetWorkerRecEmptyCdl).1 (Or.inr rfl),
   ((cdl_fragment_rendering cfg0 exFleetWorkerRecCdlX).2 "X" rfl (by decide)).1⟩

end FleetArmor
